import Mathlib

/-!
Verification of the Morningstar scraping demo
(`Selenium Web Scraping Demo.py`).

The browser session is embedded as a state-and-exception monad over an
oracle of stubbed responses: every Selenium call that can raise
(`driver.get`, `driver.find_element`, `element.click`) consumes the next
oracle response and is logged in a request trace; `driver.implicitly_wait`
only logs.  The two module-level accumulator lists `one_mo_vals` and
`ytd_vals` are part of the state, mirroring the globals mutated by
`scraper`.  The pandas frame is embedded as an ordered list of named
columns, with `DataFrame.insert` performing the checks pandas performs
(duplicate column name, column position in bounds, value length equal to
the number of rows).
-/

/-- A stubbed response of the browser session: either an element is found
(carrying the text that its `.text` attribute would yield) or the call
raises. -/
inductive Resp where
  | ok (text : String)
  | err
deriving DecidableEq

/-- A request issued to the browser session, as recorded in the trace. -/
inductive Req where
  | getUrl (url : String)
  | findElem (xpath : String)
  | click
  | wait (seconds : Nat)
deriving DecidableEq

/-- The state of a run: the remaining oracle responses, the trace of
requests issued so far, and the two global accumulator lists
(`one_mo_vals`, `ytd_vals` at lines 112-113 of the source). -/
structure St where
  oracle : List Resp
  trace : List Req
  one_mo_vals : List String
  ytd_vals : List String
deriving DecidableEq

set_option maxRecDepth 40000

deriving instance DecidableEq for Except

/-- Computations over the session: state plus Python-style exceptions. -/
def SM (α : Type) : Type := St → Except Unit α × St

def SM.pure {α : Type} (a : α) : SM α := fun s => (Except.ok a, s)

def SM.bind {α β : Type} (m : SM α) (f : α → SM β) : SM β := fun s =>
  match m s with
  | (Except.ok a, s1) => f a s1
  | (Except.error e, s1) => (Except.error e, s1)

/-- Python `try: m except: h` — any exception raised in `m` transfers
control to `h`, which runs from the state at the point of the raise. -/
def attempt {α : Type} (m h : SM α) : SM α := fun s =>
  match m s with
  | (Except.ok a, s1) => (Except.ok a, s1)
  | (Except.error _, s1) => h s1

/-- Log a request in the trace. -/
def record (r : Req) (s : St) : St := { s with trace := s.trace ++ [r] }

/-- Issue a request: log it and consume the next oracle response.  An
`err` response (or an exhausted oracle) raises. -/
def consume (r : Req) : SM String := fun s =>
  match s.oracle with
  | [] => (Except.error (), record r s)
  | Resp.err :: rest => (Except.error (), { record r s with oracle := rest })
  | Resp.ok t :: rest => (Except.ok t, { record r s with oracle := rest })

/-- `driver.get(url)`. -/
def navGet (u : String) : SM Unit :=
  SM.bind (consume (Req.getUrl u)) (fun _ => SM.pure ())

/-- `driver.find_element(By.XPATH, xp)`; the returned string is the text
the found element's `.text` attribute yields. -/
def findElem (xp : String) : SM String := consume (Req.findElem xp)

/-- `element.click()`. -/
def clickElem : SM Unit :=
  SM.bind (consume Req.click) (fun _ => SM.pure ())

/-- `driver.implicitly_wait(n)`: logged, never raises, consumes nothing. -/
def implicitlyWait (n : Nat) : SM Unit := fun s =>
  (Except.ok (), record (Req.wait n) s)

/-- Python's `str.lower()`: lower-case every character.  Stated over the
character list so that it evaluates by kernel reduction; `strLower_eq`
below identifies it with `String.toLower`. -/
def strLower (t : String) : String := ⟨t.data.map Char.toLower⟩

/-- Python's `str.upper()`, likewise. -/
def strUpper (t : String) : String := ⟨t.data.map Char.toUpper⟩

/-- Line 147: the search URL, fixed endpoint plus lower-cased ticker. -/
def searchUrl (ticker_name : String) : String :=
  "https://www.morningstar.com/search/us-securities?query=" ++ strLower ticker_name

/-- Line 154: XPATH of the first search-result link. -/
def firstResultXPath : String :=
  "//*[@id=\"__layout\"]/div/div/div[2]/div[3]/main/div/div/div[1]/section/div[1]/a"

/-- Line 180: XPATH of the Performance tab on ETF pages. -/
def etfPerformanceXPath : String := "//*[@id=\"etf__tab-performance\"]/a/span"

/-- Line 198: XPATH of the Performance tab on fund pages. -/
def fundPerformanceXPath : String := "//*[@id=\"performance\"]/a/span"

/-- Line 186: XPATH of the Monthly toggle in the ETF branch. -/
def etfMonthlyXPath : String := "//*[@id=\"monthly\"]"

/-- Line 202: XPATH of the Monthly toggle in the fund branch. -/
def fundMonthlyXPath : String := "//*[@id=\"monthly\"]"

/-- Line 193: XPATH of the monthly-return cell in the ETF branch. -/
def etfOneMoXPath : String :=
  "//*[@id=\"__layout\"]/div/div/div[2]/div[3]/div/div[2]/main/div/div/div[1]/section/sal-components/div/sal-components-funds-performance/div/div[1]/div/div/div/div[2]/div[1]/section[2]/div/div/div/div/div[2]/div[1]/div/table/tbody/tr[1]/td[2]"

/-- Line 194: XPATH of the YTD-return cell in the ETF branch. -/
def etfYtdXPath : String :=
  "//*[@id=\"__layout\"]/div/div/div[2]/div[3]/div/div[2]/main/div/div/div[1]/section/sal-components/div/sal-components-funds-performance/div/div[1]/div/div/div/div[2]/div[1]/section[2]/div/div/div/div/div[2]/div[1]/div/table/tbody/tr[1]/td[5]"

/-- Line 206: XPATH of the monthly-return cell in the fund branch. -/
def fundOneMoXPath : String :=
  "/html/body/div[2]/div/div/div/div[2]/div[3]/div/div[2]/main/div/div/div[1]/section/sal-components/div/sal-components-funds-performance/div/div[1]/div/div/div/div[2]/div[1]/section[2]/div/div/div/div/div[2]/div[1]/div/table/tbody/tr[1]/td[2]"

/-- Line 207: XPATH of the YTD-return cell in the fund branch. -/
def fundYtdXPath : String :=
  "/html/body/div[2]/div/div/div/div[2]/div[3]/div/div[2]/main/div/div/div[1]/section/sal-components/div/sal-components-funds-performance/div/div[1]/div/div/div/div[2]/div[1]/section[2]/div/div/div/div/div[2]/div[1]/div/table/tbody/tr[1]/td[5]"

/-- Lines 180-194, the body of the `try` block: Performance tab, Monthly
toggle, wait, then the two cell texts. -/
def etfBranch : SM (String × String) :=
  SM.bind (findElem etfPerformanceXPath) (fun _performance =>
  SM.bind clickElem (fun _ =>
  SM.bind (implicitlyWait 5) (fun _ =>
  SM.bind (findElem etfMonthlyXPath) (fun _monthly_button =>
  SM.bind clickElem (fun _ =>
  SM.bind (implicitlyWait 5) (fun _ =>
  SM.bind (findElem etfOneMoXPath) (fun one_mo =>
  SM.bind (findElem etfYtdXPath) (fun ytd =>
  SM.pure (one_mo, ytd)))))))))

/-- Lines 198-207, the body of the `except` block: the same sequence with
the fund-specific locators. -/
def fundBranch : SM (String × String) :=
  SM.bind (findElem fundPerformanceXPath) (fun _performance =>
  SM.bind clickElem (fun _ =>
  SM.bind (implicitlyWait 5) (fun _ =>
  SM.bind (findElem fundMonthlyXPath) (fun _monthly_button =>
  SM.bind clickElem (fun _ =>
  SM.bind (implicitlyWait 5) (fun _ =>
  SM.bind (findElem fundOneMoXPath) (fun one_mo =>
  SM.bind (findElem fundYtdXPath) (fun ytd =>
  SM.pure (one_mo, ytd)))))))))

/-- Lines 147-163, before the `try` block: load the search URL, click the
first search result, wait. -/
def openSecurityPage (ticker_name : String) : SM Unit :=
  SM.bind (navGet (searchUrl ticker_name)) (fun _ =>
  SM.bind (findElem firstResultXPath) (fun _link =>
  SM.bind clickElem (fun _ =>
  implicitlyWait 5)))

/-- Lines 147-207 of `scraper`: everything up to and including the
try/except, yielding the pair `(one_mo, ytd)`. -/
def scraperCore (ticker_name : String) : SM (String × String) :=
  SM.bind (openSecurityPage ticker_name) (fun _ =>
  attempt etfBranch fundBranch)

/-- Lines 210-211: append the scraped pair to the two global lists. -/
def pushVals (p : String × String) (s : St) : St :=
  { s with one_mo_vals := s.one_mo_vals ++ [p.1],
           ytd_vals := s.ytd_vals ++ [p.2] }

/-- Lines 144-211: the whole `scraper` function. -/
def scraper (ticker_name : String) : SM Unit := fun s =>
  match scraperCore ticker_name s with
  | (Except.ok p, s1) => (Except.ok (), pushVals p s1)
  | (Except.error e, s1) => (Except.error e, s1)

/-- Lines 222-223: the batch loop over the ticker list. -/
def batchLoop : List String → SM Unit
  | [] => SM.pure ()
  | t :: rest => SM.bind (scraper t) (fun _ => batchLoop rest)

/-- The state at the start of a run: the stub oracle, no requests issued,
both accumulator lists empty. -/
def initSt (oracle : List Resp) : St := ⟨oracle, [], [], []⟩

/-- The pairs `(one_mo, ytd)` the successive scraper calls produce, one
per ticker in list order; `none` as soon as one call raises. -/
def batchResults : List String → St → Option (List (String × String))
  | [], _ => some []
  | t :: rest, s =>
    match scraperCore t s with
    | (Except.ok p, s1) => (batchResults rest (pushVals p s1)).map (fun ps => p :: ps)
    | (Except.error _, _) => none

/-- The URLs of the `getUrl` requests in a trace, in order. -/
def urlsRequested (tr : List Req) : List String :=
  tr.filterMap (fun r => match r with | Req.getUrl u => some u | _ => none)

/-- The in-memory pandas frame after `read_csv`: a row count and an
ordered list of named columns. -/
structure DataFrame where
  nrows : Nat
  cols : List (String × List String)
deriving DecidableEq

/-- Every column holds one value per row. -/
def DataFrame.wf (df : DataFrame) : Prop :=
  ∀ c ∈ df.cols, c.2.length = df.nrows

/-- Column lookup, as in `df[["Ticker"]].Ticker.values.tolist()`. -/
def DataFrame.getCol (df : DataFrame) (column : String) : Option (List String) :=
  (df.cols.find? (fun c => c.1 == column)).map Prod.snd

/-- `df.insert(loc, column, value)` with pandas' checks: raises (here
`none`) on a duplicate column name, an out-of-bounds position, or a value
length different from the number of rows. -/
def DataFrame.insert (df : DataFrame) (loc : Nat) (column : String)
    (value : List String) : Option DataFrame :=
  if df.cols.any (fun c => c.1 == column) then none
  else if df.cols.length < loc then none
  else if value.length ≠ df.nrows then none
  else some ⟨df.nrows, df.cols.take loc ++ (column, value) :: df.cols.drop loc⟩

/-- Lines 133-251: extract `df_tickers`, run the batch loop, insert the
two new columns at positions 4 and 5, and (when nothing raised) write the
result.  `none` means the run raised and no output file was produced. -/
def runPipeline (df : DataFrame) (oracle : List Resp) : Option DataFrame :=
  match df.getCol "Ticker" with
  | none => none
  | some df_tickers =>
    match batchLoop df_tickers (initSt oracle) with
    | (Except.ok _, s1) =>
      match df.insert 4 "Monthly" s1.one_mo_vals with
      | none => none
      | some df1 => df1.insert 5 "YTD" s1.ytd_vals
    | (Except.error _, _) => none

/-- The requests the ETF branch issues when every lookup succeeds. -/
def etfTraceDelta : List Req :=
  [Req.findElem etfPerformanceXPath, Req.click, Req.wait 5,
   Req.findElem etfMonthlyXPath, Req.click, Req.wait 5,
   Req.findElem etfOneMoXPath, Req.findElem etfYtdXPath]

/-- The requests the fund branch issues when every lookup succeeds. -/
def fundTraceDelta : List Req :=
  [Req.findElem fundPerformanceXPath, Req.click, Req.wait 5,
   Req.findElem fundMonthlyXPath, Req.click, Req.wait 5,
   Req.findElem fundOneMoXPath, Req.findElem fundYtdXPath]

/-- Stub run for C1: the search page resolves, the ETF Performance-tab
locator fails, every fund-layout lookup succeeds. -/
def c1w0 : St := initSt [Resp.ok "a", Resp.ok "b", Resp.ok "c", Resp.err,
  Resp.ok "d", Resp.ok "e", Resp.ok "f", Resp.ok "g", Resp.ok "1.23", Resp.ok "10.45"]

def c1w1 : St := (openSecurityPage "spy" c1w0).2

def c1w2 : St := (etfBranch c1w1).2

/-- Stub responses for C2's counterexample run: one ticker, full ETF-path
success. -/
def c2cexOracle : List Resp := [Resp.ok "a", Resp.ok "b", Resp.ok "c", Resp.ok "d",
  Resp.ok "e", Resp.ok "f", Resp.ok "g", Resp.ok "1.23", Resp.ok "10.45"]

/-- A one-column input table: every scrape succeeds, yet `df.insert(4, ...)`
raises because position 4 exceeds the column count. -/
def c2cexDf : DataFrame := ⟨1, [("Ticker", ["SPY"])]⟩

/-- A four-column input table for C2's positive run. -/
def c2df : DataFrame :=
  ⟨2, [("Ticker", ["SPY", "VFIAX"]), ("Category", ["ETF", "FUND"]),
    ("Inception", ["1993", "2000"]), ("Expense", ["0.09", "0.04"])]⟩

/-- Stub responses for C2's positive run: two tickers, both ETF path. -/
def c2oracle : List Resp :=
  [Resp.ok "a", Resp.ok "b", Resp.ok "c", Resp.ok "d", Resp.ok "e", Resp.ok "f",
   Resp.ok "g", Resp.ok "1.23", Resp.ok "10.45",
   Resp.ok "a", Resp.ok "b", Resp.ok "c", Resp.ok "d", Resp.ok "e", Resp.ok "f",
   Resp.ok "g", Resp.ok "0.98", Resp.ok "9.11"]

def c2s1 : St := (batchLoop ["SPY", "VFIAX"] (initSt c2oracle)).2

def c2ps : List (String × String) := [("1.23", "10.45"), ("0.98", "9.11")]

/-- Stub run for C3: search page resolves, then both the ETF and the fund
Performance-tab locators fail. -/
def c3w0 : St := initSt [Resp.ok "a", Resp.ok "b", Resp.ok "c", Resp.err, Resp.err]

def c3w1 : St := (openSecurityPage "spy" c3w0).2

def c3w2 : St := (etfBranch c3w1).2

def c3w3 : St := (fundBranch c3w2).2

/-- A two-column input table for C4's failing run. -/
def c4df : DataFrame := ⟨1, [("Category", ["ETF"]), ("Ticker", ["SPY"])]⟩

def c4s1 : St := (batchLoop ["SPY"] (initSt [Resp.err])).2

/-- Stub responses for C6: one ticker, full ETF-path success. -/
def c6oracle : List Resp := [Resp.ok "a", Resp.ok "b", Resp.ok "c", Resp.ok "d",
  Resp.ok "e", Resp.ok "f", Resp.ok "g", Resp.ok "1.23", Resp.ok "10.45"]

def c6s1 : St := (batchLoop ["SPY"] (initSt c6oracle)).2

def c6ps : List (String × String) := [("1.23", "10.45")]

/-- A state in which every ETF-branch lookup succeeds, for C7. -/
def c7e : St := ⟨[Resp.ok "a", Resp.ok "b", Resp.ok "c", Resp.ok "d",
  Resp.ok "1.1", Resp.ok "2.2"], [], [], []⟩

/-- A state in which every fund-branch lookup succeeds, for C7. -/
def c7f : St := ⟨[Resp.ok "a", Resp.ok "b", Resp.ok "c", Resp.ok "d",
  Resp.ok "3.3", Resp.ok "4.4"], [], [], []⟩

/-- An exhausted oracle for C9: the very first `driver.get` raises. -/
def c9w0 : St := initSt []

/-- For C10: the `driver.get` of the search URL itself raises. -/
def c10w0 : St := initSt [Resp.err]

def c10w1 : St := (openSecurityPage "spy" c10w0).2

lemma SM.pure_bind {α β : Type} (a : α) (f : α → SM β) : SM.bind (SM.pure a) f = f a := rfl

lemma SM.bind_assoc {α β γ : Type} (m : SM α) (f : α → SM β) (g : β → SM γ) :
    SM.bind (SM.bind m f) g = SM.bind m (fun a => SM.bind (f a) g) := by
  funext s
  rcases hms : m s with ⟨e | a, s1⟩ <;> simp [SM.bind, hms]

lemma urlsRequested_append (a b : List Req) :
    urlsRequested (a ++ b) = urlsRequested a ++ urlsRequested b :=
  List.filterMap_append ..

lemma consume_state (r : Req) (s : St) :
    ((consume r s).2).trace = s.trace ++ [r] ∧
    ((consume r s).2).one_mo_vals = s.one_mo_vals ∧
    ((consume r s).2).ytd_vals = s.ytd_vals := by
  obtain ⟨o, tr, mv, yv⟩ := s
  cases o with
  | nil => exact ⟨rfl, rfl, rfl⟩
  | cons r0 rest => cases r0 <;> exact ⟨rfl, rfl, rfl⟩

/-- A computation that only extends the trace with non-`getUrl` requests
and never touches the accumulator lists — whether it raises or not. -/
def Quiet {α : Type} (m : SM α) : Prop :=
  ∀ s, ∃ d, ((m s).2).trace = s.trace ++ d ∧ urlsRequested d = [] ∧
    ((m s).2).one_mo_vals = s.one_mo_vals ∧ ((m s).2).ytd_vals = s.ytd_vals

lemma quiet_pure {α : Type} (a : α) : Quiet (SM.pure a) := by
  intro s
  exact ⟨[], by simp [SM.pure], rfl, rfl, rfl⟩

lemma quiet_findElem (xp : String) : Quiet (findElem xp) := by
  intro s
  obtain ⟨h1, h2, h3⟩ := consume_state (Req.findElem xp) s
  exact ⟨[Req.findElem xp], h1, rfl, h2, h3⟩

lemma quiet_consume_click : Quiet (consume Req.click) := by
  intro s
  obtain ⟨h1, h2, h3⟩ := consume_state Req.click s
  exact ⟨[Req.click], h1, rfl, h2, h3⟩

lemma quiet_wait (n : Nat) : Quiet (implicitlyWait n) := by
  intro s
  exact ⟨[Req.wait n], rfl, rfl, rfl, rfl⟩

lemma quiet_bind {α β : Type} {m : SM α} {f : α → SM β}
    (hm : Quiet m) (hf : ∀ a, Quiet (f a)) : Quiet (SM.bind m f) := by
  intro s
  obtain ⟨d1, ht1, hu1, hv1, hy1⟩ := hm s
  rcases hms : m s with ⟨e | a, s1⟩
  · rw [hms] at ht1 hv1 hy1
    have ht1' : s1.trace = s.trace ++ d1 := ht1
    have hv1' : s1.one_mo_vals = s.one_mo_vals := hv1
    have hy1' : s1.ytd_vals = s.ytd_vals := hy1
    exact ⟨d1, by simp [SM.bind, hms, ht1'], hu1, by simp [SM.bind, hms, hv1'],
      by simp [SM.bind, hms, hy1']⟩
  · rw [hms] at ht1 hv1 hy1
    have ht1' : s1.trace = s.trace ++ d1 := ht1
    have hv1' : s1.one_mo_vals = s.one_mo_vals := hv1
    have hy1' : s1.ytd_vals = s.ytd_vals := hy1
    obtain ⟨d2, ht2, hu2, hv2, hy2⟩ := hf a s1
    refine ⟨d1 ++ d2, ?_, ?_, ?_, ?_⟩
    · simp [SM.bind, hms, ht2, ht1', List.append_assoc]
    · simp [urlsRequested_append, hu1, hu2]
    · simp [SM.bind, hms, hv2, hv1']
    · simp [SM.bind, hms, hy2, hy1']

lemma quiet_clickElem : Quiet clickElem :=
  quiet_bind quiet_consume_click (fun _ => quiet_pure ())

lemma quiet_attempt {α : Type} {m h : SM α} (hm : Quiet m) (hh : Quiet h) :
    Quiet (attempt m h) := by
  intro s
  obtain ⟨d1, ht1, hu1, hv1, hy1⟩ := hm s
  rcases hms : m s with ⟨e | a, s1⟩
  · rw [hms] at ht1 hv1 hy1
    have ht1' : s1.trace = s.trace ++ d1 := ht1
    have hv1' : s1.one_mo_vals = s.one_mo_vals := hv1
    have hy1' : s1.ytd_vals = s.ytd_vals := hy1
    obtain ⟨d2, ht2, hu2, hv2, hy2⟩ := hh s1
    refine ⟨d1 ++ d2, ?_, ?_, ?_, ?_⟩
    · simp [attempt, hms, ht2, ht1', List.append_assoc]
    · simp [urlsRequested_append, hu1, hu2]
    · simp [attempt, hms, hv2, hv1']
    · simp [attempt, hms, hy2, hy1']
  · rw [hms] at ht1 hv1 hy1
    have ht1' : s1.trace = s.trace ++ d1 := ht1
    have hv1' : s1.one_mo_vals = s.one_mo_vals := hv1
    have hy1' : s1.ytd_vals = s.ytd_vals := hy1
    exact ⟨d1, by simp [attempt, hms, ht1'], hu1, by simp [attempt, hms, hv1'],
      by simp [attempt, hms, hy1']⟩

lemma quiet_etfBranch : Quiet etfBranch :=
  quiet_bind (quiet_findElem _) (fun _ =>
  quiet_bind quiet_clickElem (fun _ =>
  quiet_bind (quiet_wait 5) (fun _ =>
  quiet_bind (quiet_findElem _) (fun _ =>
  quiet_bind quiet_clickElem (fun _ =>
  quiet_bind (quiet_wait 5) (fun _ =>
  quiet_bind (quiet_findElem _) (fun _ =>
  quiet_bind (quiet_findElem _) (fun _ =>
  quiet_pure _))))))))

lemma quiet_fundBranch : Quiet fundBranch :=
  quiet_bind (quiet_findElem _) (fun _ =>
  quiet_bind quiet_clickElem (fun _ =>
  quiet_bind (quiet_wait 5) (fun _ =>
  quiet_bind (quiet_findElem _) (fun _ =>
  quiet_bind quiet_clickElem (fun _ =>
  quiet_bind (quiet_wait 5) (fun _ =>
  quiet_bind (quiet_findElem _) (fun _ =>
  quiet_bind (quiet_findElem _) (fun _ =>
  quiet_pure _))))))))

lemma after_get_state {β : Type} (u : String) (k : Unit → SM β) (hk : Quiet (k ())) (s : St) :
    ∃ d, ((SM.bind (navGet u) k s).2).trace = s.trace ++ Req.getUrl u :: d ∧
      urlsRequested d = [] ∧
      ((SM.bind (navGet u) k s).2).one_mo_vals = s.one_mo_vals ∧
      ((SM.bind (navGet u) k s).2).ytd_vals = s.ytd_vals := by
  have he : SM.bind (navGet u) k = SM.bind (consume (Req.getUrl u)) (fun _ => k ()) := by
    unfold navGet
    rw [SM.bind_assoc]
    simp only [SM.pure_bind]
  rw [he]
  obtain ⟨ht1, hv1, hy1⟩ := consume_state (Req.getUrl u) s
  rcases hms : consume (Req.getUrl u) s with ⟨e | a, s1⟩
  · rw [hms] at ht1 hv1 hy1
    have ht1' : s1.trace = s.trace ++ [Req.getUrl u] := ht1
    have hv1' : s1.one_mo_vals = s.one_mo_vals := hv1
    have hy1' : s1.ytd_vals = s.ytd_vals := hy1
    exact ⟨[], by simp [SM.bind, hms, ht1'], rfl, by simp [SM.bind, hms, hv1'],
      by simp [SM.bind, hms, hy1']⟩
  · rw [hms] at ht1 hv1 hy1
    have ht1' : s1.trace = s.trace ++ [Req.getUrl u] := ht1
    have hv1' : s1.one_mo_vals = s.one_mo_vals := hv1
    have hy1' : s1.ytd_vals = s.ytd_vals := hy1
    obtain ⟨d2, ht2, hu2, hv2, hy2⟩ := hk s1
    refine ⟨d2, ?_, hu2, ?_, ?_⟩
    · simp [SM.bind, hms, ht2, ht1', List.append_assoc]
    · simp [SM.bind, hms, hv2, hv1']
    · simp [SM.bind, hms, hy2, hy1']

lemma scraperCore_state (t : String) (s : St) :
    ∃ d, ((scraperCore t s).2).trace = s.trace ++ Req.getUrl (searchUrl t) :: d ∧
      urlsRequested d = [] ∧
      ((scraperCore t s).2).one_mo_vals = s.one_mo_vals ∧
      ((scraperCore t s).2).ytd_vals = s.ytd_vals := by
  have he : scraperCore t =
      SM.bind (navGet (searchUrl t)) (fun _ =>
        SM.bind (SM.bind (findElem firstResultXPath) (fun _link =>
          SM.bind clickElem (fun _ => implicitlyWait 5)))
          (fun _ => attempt etfBranch fundBranch)) := by
    unfold scraperCore openSecurityPage
    rw [SM.bind_assoc]
  rw [he]
  exact after_get_state _ _
    (quiet_bind
      (quiet_bind (quiet_findElem _) (fun _ =>
        quiet_bind quiet_clickElem (fun _ => quiet_wait 5)))
      (fun _ => quiet_attempt quiet_etfBranch quiet_fundBranch)) s

lemma scraper_cases (t : String) (s : St) :
    (∃ p s1, scraperCore t s = (Except.ok p, s1) ∧
      scraper t s = (Except.ok (), pushVals p s1) ∧
      s1.one_mo_vals = s.one_mo_vals ∧ s1.ytd_vals = s.ytd_vals) ∨
    (∃ e s1, scraperCore t s = (Except.error e, s1) ∧
      scraper t s = (Except.error e, s1) ∧
      s1.one_mo_vals = s.one_mo_vals ∧ s1.ytd_vals = s.ytd_vals) := by
  obtain ⟨d, ht, hu, hv, hy⟩ := scraperCore_state t s
  rcases hms : scraperCore t s with ⟨e | p, s1⟩
  · rw [hms] at hv hy
    exact Or.inr ⟨e, s1, rfl, by simp [scraper, hms], hv, hy⟩
  · rw [hms] at hv hy
    exact Or.inl ⟨p, s1, rfl, by simp [scraper, hms], hv, hy⟩

lemma scraper_trace (t : String) (s : St) :
    ∃ d, ((scraper t s).2).trace = s.trace ++ Req.getUrl (searchUrl t) :: d ∧
      urlsRequested d = [] := by
  obtain ⟨d, ht, hu, hv, hy⟩ := scraperCore_state t s
  rcases hms : scraperCore t s with ⟨e | p, s1⟩ <;> rw [hms] at ht
  · have ht' : s1.trace = s.trace ++ Req.getUrl (searchUrl t) :: d := ht
    exact ⟨d, by simp [scraper, hms, ht'], hu⟩
  · have ht' : s1.trace = s.trace ++ Req.getUrl (searchUrl t) :: d := ht
    exact ⟨d, by simp [scraper, hms, pushVals, ht'], hu⟩

lemma scraper_urls (t : String) (s : St) :
    urlsRequested ((scraper t s).2).trace = urlsRequested s.trace ++ [searchUrl t] := by
  obtain ⟨d, ht, hu⟩ := scraper_trace t s
  rw [ht]
  have : Req.getUrl (searchUrl t) :: d = [Req.getUrl (searchUrl t)] ++ d := rfl
  rw [this, ← List.append_assoc, urlsRequested_append, urlsRequested_append, hu]
  simp [urlsRequested]

lemma etfBranch_ok (s : St) (a b c d v1 v2 : String) (rest : List Resp)
    (ho : s.oracle = Resp.ok a :: Resp.ok b :: Resp.ok c :: Resp.ok d ::
      Resp.ok v1 :: Resp.ok v2 :: rest) :
    etfBranch s = (Except.ok (v1, v2),
      ⟨rest, s.trace ++ etfTraceDelta, s.one_mo_vals, s.ytd_vals⟩) := by
  obtain ⟨o, tr, mv, yv⟩ := s
  simp only at ho
  subst ho
  simp [etfBranch, SM.bind, SM.pure, findElem, clickElem, consume, record,
    implicitlyWait, etfTraceDelta]

lemma fundBranch_ok (s : St) (a b c d v1 v2 : String) (rest : List Resp)
    (ho : s.oracle = Resp.ok a :: Resp.ok b :: Resp.ok c :: Resp.ok d ::
      Resp.ok v1 :: Resp.ok v2 :: rest) :
    fundBranch s = (Except.ok (v1, v2),
      ⟨rest, s.trace ++ fundTraceDelta, s.one_mo_vals, s.ytd_vals⟩) := by
  obtain ⟨o, tr, mv, yv⟩ := s
  simp only at ho
  subst ho
  simp [fundBranch, SM.bind, SM.pure, findElem, clickElem, consume, record,
    implicitlyWait, fundTraceDelta]

/-- When the `try` body raises, the `except` body runs from the state at
the point of the raise. -/
lemma scraperCore_eq_fund_of_etf_error (t : String) (s s1 s2 : St) (e : Unit)
    (hnav : openSecurityPage t s = (Except.ok (), s1))
    (hetf : etfBranch s1 = (Except.error e, s2)) :
    scraperCore t s = fundBranch s2 := by
  unfold scraperCore
  show SM.bind (openSecurityPage t) _ s = _
  simp [SM.bind, hnav, attempt, hetf]

lemma batchLoop_ok_spec :
    ∀ (tickers : List String) (s s1 : St) (ps : List (String × String)),
      batchLoop tickers s = (Except.ok (), s1) →
      batchResults tickers s = some ps →
      ps.length = tickers.length ∧
      s1.one_mo_vals = s.one_mo_vals ++ ps.map Prod.fst ∧
      s1.ytd_vals = s.ytd_vals ++ ps.map Prod.snd ∧
      urlsRequested s1.trace = urlsRequested s.trace ++ tickers.map searchUrl
  | [], s, s1, ps, hb, hr => by
    have hs : s1 = s := by
      have : (Except.ok (), s) = ((Except.ok (), s1) : Except Unit Unit × St) := hb
      exact (congrArg Prod.snd this).symm
    have hps : ps = [] := by
      simp [batchResults] at hr
      exact hr
    subst hs; subst hps
    simp
  | t :: rest, s, s1, ps, hb, hr => by
    rcases scraper_cases t s with ⟨p, s0, hc, hs, hv, hy⟩ | ⟨e, s0, hc, hs, hy, hv⟩
    · have hb' : batchLoop rest (pushVals p s0) = (Except.ok (), s1) := by
        have : batchLoop (t :: rest) s = SM.bind (scraper t) (fun _ => batchLoop rest) s := rfl
        rw [this] at hb
        simpa [SM.bind, hs] using hb
      have hr' : (batchResults rest (pushVals p s0)).map (fun l => p :: l) = some ps := by
        simpa [batchResults, hc] using hr
      obtain ⟨tail, htail, hps⟩ := Option.map_eq_some'.mp hr'
      subst hps
      obtain ⟨ih1, ih2, ih3, ih4⟩ := batchLoop_ok_spec rest (pushVals p s0) s1 tail hb' htail
      refine ⟨by simp [ih1], ?_, ?_, ?_⟩
      · rw [ih2]
        simp [pushVals, hv, List.append_assoc]
      · rw [ih3]
        simp [pushVals, hy, List.append_assoc]
      · rw [ih4]
        have hu : urlsRequested (pushVals p s0).trace =
            urlsRequested s.trace ++ [searchUrl t] := by
          have h2 : (scraper t s).2 = pushVals p s0 := by rw [hs]
          have := scraper_urls t s
          rwa [h2] at this
        rw [hu]
        simp [List.append_assoc]
    · have : batchLoop (t :: rest) s = SM.bind (scraper t) (fun _ => batchLoop rest) s := rfl
      rw [this] at hb
      simp [SM.bind, hs] at hb

/-- A computation whose trace extension mentions no `findElem` request
outside the locator list `xs`. -/
def FindsIn (xs : List String) {α : Type} (m : SM α) : Prop :=
  ∀ s, ∃ d, ((m s).2).trace = s.trace ++ d ∧
    ∀ xp, Req.findElem xp ∈ d → xp ∈ xs

lemma findsIn_consume (xs : List String) (r : Req)
    (hr : ∀ xp, r = Req.findElem xp → xp ∈ xs) : FindsIn xs (consume r) := by
  intro s
  obtain ⟨h1, _, _⟩ := consume_state r s
  refine ⟨[r], h1, fun xp hxp => ?_⟩
  simp at hxp
  exact hr xp hxp.symm

lemma findsIn_pure (xs : List String) {α : Type} (a : α) : FindsIn xs (SM.pure a) :=
  fun _ => ⟨[], by simp [SM.pure], by simp⟩

lemma findsIn_wait (xs : List String) (n : Nat) : FindsIn xs (implicitlyWait n) :=
  fun _ => ⟨[Req.wait n], rfl, by simp⟩

lemma findsIn_bind {xs : List String} {α β : Type} {m : SM α} {f : α → SM β}
    (hm : FindsIn xs m) (hf : ∀ a, FindsIn xs (f a)) : FindsIn xs (SM.bind m f) := by
  intro s
  obtain ⟨d1, ht1, hm1⟩ := hm s
  rcases hms : m s with ⟨e | a, s1⟩
  · rw [hms] at ht1
    have ht1' : s1.trace = s.trace ++ d1 := ht1
    exact ⟨d1, by simp [SM.bind, hms, ht1'], hm1⟩
  · rw [hms] at ht1
    have ht1' : s1.trace = s.trace ++ d1 := ht1
    obtain ⟨d2, ht2, hm2⟩ := hf a s1
    refine ⟨d1 ++ d2, by simp [SM.bind, hms, ht2, ht1', List.append_assoc], ?_⟩
    intro xp hxp
    rcases List.mem_append.mp hxp with h | h
    · exact hm1 xp h
    · exact hm2 xp h

lemma findsIn_openSecurityPage (t : String) :
    FindsIn [firstResultXPath] (openSecurityPage t) := by
  unfold openSecurityPage navGet findElem clickElem
  exact findsIn_bind
    (findsIn_bind (findsIn_consume _ _ (by intro xp h; cases h))
      (fun _ => findsIn_pure _ ()))
    (fun _ => findsIn_bind (findsIn_consume _ _ (by intro xp h; simp at h; simp [h]))
      (fun _ => findsIn_bind
        (findsIn_bind (findsIn_consume _ _ (by intro xp h; cases h))
          (fun _ => findsIn_pure _ ()))
        (fun _ => findsIn_wait _ 5)))

lemma char_toNat_ofNat {n : Nat} (h : n.isValidChar) : (Char.ofNat n).toNat = n := by
  rw [Char.ofNat, dif_pos h]
  rfl

lemma char_toLower_toUpper (c : Char) : Char.toLower (Char.toUpper c) = Char.toLower c := by
  unfold Char.toUpper Char.toLower
  by_cases h : c.toNat ≥ 97 ∧ c.toNat ≤ 122
  · rw [if_pos h]
    have hv : Nat.isValidChar (c.toNat - 32) := Or.inl (by omega)
    have ht : (Char.ofNat (c.toNat - 32)).toNat = c.toNat - 32 := char_toNat_ofNat hv
    rw [ht]
    rw [if_pos (by omega : c.toNat - 32 ≥ 65 ∧ c.toNat - 32 ≤ 90)]
    rw [if_neg (by omega : ¬(c.toNat ≥ 65 ∧ c.toNat ≤ 90))]
    have harith : c.toNat - 32 + 32 = c.toNat := by omega
    rw [harith, Char.ofNat_toNat]
  · rw [if_neg h]

/-- The list-level lowercasing agrees with `String.toLower`. -/
lemma strLower_eq (t : String) : strLower t = t.toLower := by
  rw [String.toLower, String.map_eq]
  rfl

/-- The list-level uppercasing agrees with `String.toUpper`. -/
lemma strUpper_eq (t : String) : strUpper t = t.toUpper := by
  rw [String.toUpper, String.map_eq]
  rfl

lemma strLower_strUpper (t : String) : strLower (strUpper t) = strLower t := by
  unfold strLower strUpper
  have hmm : (t.data.map Char.toUpper).map Char.toLower =
      t.data.map (Char.toLower ∘ Char.toUpper) := by
    rw [List.map_map]
  have hfun : Char.toLower ∘ Char.toUpper = Char.toLower := by
    funext c
    exact char_toLower_toUpper c
  rw [show (⟨t.data.map Char.toUpper⟩ : String).data = t.data.map Char.toUpper from rfl,
    hmm, hfun]

lemma insert_ok (df : DataFrame) (loc : Nat) (column : String) (value : List String)
    (hdup : ∀ c ∈ df.cols, c.1 ≠ column)
    (hloc : loc ≤ df.cols.length)
    (hlen : value.length = df.nrows) :
    df.insert loc column value =
      some ⟨df.nrows, df.cols.take loc ++ (column, value) :: df.cols.drop loc⟩ := by
  unfold DataFrame.insert
  have h1 : ¬(df.cols.any (fun c => c.1 == column) = true) := by
    simp only [List.any_eq_true, beq_iff_eq, not_exists]
    intro c
    simp only [not_and]
    intro hc
    exact hdup c hc
  have h2 : ¬(df.cols.length < loc) := by omega
  have h3 : ¬(value.length ≠ df.nrows) := by simpa using hlen
  rw [if_neg h1, if_neg h2, if_neg h3]

lemma getCol_length (df : DataFrame) (column : String) (l : List String)
    (hwf : df.wf) (h : df.getCol column = some l) : l.length = df.nrows := by
  unfold DataFrame.getCol at h
  rcases hf : df.cols.find? (fun c => c.1 == column) with _ | c
  · rw [hf] at h
    simp at h
  · rw [hf] at h
    simp at h
    have hmem := List.mem_of_find?_eq_some hf
    rw [← h]
    exact hwf c hmem

example :
    scraperCore "spy"
      (initSt [Resp.ok "a", Resp.ok "b", Resp.ok "c", Resp.ok "d", Resp.ok "e",
        Resp.ok "f", Resp.ok "g", Resp.ok "1.23", Resp.ok "10.45"]) =
      (Except.ok ("1.23", "10.45"),
        ⟨[], [Req.getUrl (searchUrl "spy"), Req.findElem firstResultXPath, Req.click,
          Req.wait 5] ++ etfTraceDelta, [], []⟩) := by
  decide

/-- C1: for every ticker, if the ETF-layout path of the scraper fails for
any reason, the scraper falls back to the fund-layout path, repeats the
same sequence (performance tab, monthly toggle, wait, cell extraction)
with the fund-specific locators, and records the two extracted text
values. -/
theorem etf_failure_falls_back_to_fund_layout
    (t : String) (s s1 s2 : St) (e : Unit)
    (a b c d v1 v2 : String) (rest : List Resp)
    (hnav : openSecurityPage t s = (Except.ok (), s1))
    (hetf : etfBranch s1 = (Except.error e, s2))
    (ho : s2.oracle = Resp.ok a :: Resp.ok b :: Resp.ok c :: Resp.ok d ::
      Resp.ok v1 :: Resp.ok v2 :: rest) :
    scraper t s = (Except.ok (),
      ⟨rest, s2.trace ++ fundTraceDelta,
        s2.one_mo_vals ++ [v1], s2.ytd_vals ++ [v2]⟩) := by
  have hcore : scraperCore t s = fundBranch s2 :=
    scraperCore_eq_fund_of_etf_error t s s1 s2 e hnav hetf
  have hf := fundBranch_ok s2 a b c d v1 v2 rest ho
  simp [scraper, hcore, hf, pushVals]

theorem etf_failure_falls_back_to_fund_layout_witness :
    scraper "spy" c1w0 = (Except.ok (),
      ⟨[], c1w2.trace ++ fundTraceDelta,
        c1w2.one_mo_vals ++ ["1.23"], c1w2.ytd_vals ++ ["10.45"]⟩) :=
  etf_failure_falls_back_to_fund_layout "spy" c1w0 c1w1 c1w2 ()
    "d" "e" "f" "g" "1.23" "10.45" [] (by decide) (by decide) (by decide)

/-- C2 (counterexample): on a one-column table every per-ticker scrape
succeeds, yet the run produces no output table at all, because
`df.insert(4, "Monthly", ...)` raises: position 4 exceeds the column
count.  The claim promises an output table for every input table. -/
theorem pipeline_narrow_table_counterexample :
    c2cexDf.getCol "Ticker" = some ["SPY"] ∧
    (batchLoop ["SPY"] (initSt c2cexOracle)).1 = Except.ok () ∧
    runPipeline c2cexDf c2cexOracle = none := by
  refine ⟨by decide, by decide, ?_⟩
  decide

/-- C2 (amended): for every input table with N rows, at least 4 columns,
and no column already named "Monthly" or "YTD", a run in which every
per-ticker scrape succeeds yields an output table with N rows and exactly
two additional columns, holding the scraped values in ticker order, with
the original columns preserved around the two insertion positions. -/
theorem pipeline_appends_two_columns (df : DataFrame) (oracle : List Resp)
    (df_tickers : List String) (s1 : St) (ps : List (String × String))
    (hwf : df.wf)
    (ht : df.getCol "Ticker" = some df_tickers)
    (hcols : 4 ≤ df.cols.length)
    (hfresh : ∀ c ∈ df.cols, c.1 ≠ "Monthly" ∧ c.1 ≠ "YTD")
    (hb : batchLoop df_tickers (initSt oracle) = (Except.ok (), s1))
    (hr : batchResults df_tickers (initSt oracle) = some ps) :
    runPipeline df oracle =
      some ⟨df.nrows,
        df.cols.take 4 ++ ("Monthly", ps.map Prod.fst) ::
          ("YTD", ps.map Prod.snd) :: df.cols.drop 4⟩ := by
  obtain ⟨hlen, hone, hytd, _⟩ := batchLoop_ok_spec df_tickers (initSt oracle) s1 ps hb hr
  have hone' : s1.one_mo_vals = ps.map Prod.fst := by simpa [initSt] using hone
  have hytd' : s1.ytd_vals = ps.map Prod.snd := by simpa [initSt] using hytd
  have htlen : df_tickers.length = df.nrows := getCol_length df "Ticker" df_tickers hwf ht
  have hnlen1 : (ps.map Prod.fst).length = df.nrows := by simp [hlen, htlen]
  have hnlen2 : (ps.map Prod.snd).length = df.nrows := by simp [hlen, htlen]
  have hins1 : df.insert 4 "Monthly" s1.one_mo_vals =
      some ⟨df.nrows, df.cols.take 4 ++ ("Monthly", ps.map Prod.fst) :: df.cols.drop 4⟩ := by
    rw [hone']
    exact insert_ok df 4 "Monthly" _ (fun c hc => (hfresh c hc).1) (by omega) hnlen1
  have h4 : (df.cols.take 4).length = 4 := by
    rw [List.length_take]
    omega
  have hdup1 : ∀ c ∈ (⟨df.nrows,
      df.cols.take 4 ++ ("Monthly", ps.map Prod.fst) :: df.cols.drop 4⟩ : DataFrame).cols,
      c.1 ≠ "YTD" := by
    intro c hc
    rcases List.mem_append.mp hc with h | h
    · exact (hfresh c (List.take_subset 4 df.cols h)).2
    · rcases List.mem_cons.mp h with h | h
      · rw [h]
        show "Monthly" ≠ "YTD"
        decide
      · exact (hfresh c (List.drop_subset 4 df.cols h)).2
  have hloc1 : 5 ≤ (df.cols.take 4 ++ ("Monthly", ps.map Prod.fst) :: df.cols.drop 4).length := by
    rw [List.length_append, h4]
    simp only [List.length_cons, List.length_drop]
    omega
  have hins2' := insert_ok
    ⟨df.nrows, df.cols.take 4 ++ ("Monthly", ps.map Prod.fst) :: df.cols.drop 4⟩
    5 "YTD" (ps.map Prod.snd) hdup1 hloc1 hnlen2
  have hta : (df.cols.take 4 ++ ("Monthly", ps.map Prod.fst) :: df.cols.drop 4).take 5 =
      df.cols.take 4 ++ [("Monthly", ps.map Prod.fst)] := by
    rw [show (5 : Nat) = (df.cols.take 4).length + 1 by omega, List.take_append]
    rfl
  have hda : (df.cols.take 4 ++ ("Monthly", ps.map Prod.fst) :: df.cols.drop 4).drop 5 =
      df.cols.drop 4 := by
    rw [show (5 : Nat) = (df.cols.take 4).length + 1 by omega, List.drop_append]
    rfl
  have hins2 : DataFrame.insert
      ⟨df.nrows, df.cols.take 4 ++ ("Monthly", ps.map Prod.fst) :: df.cols.drop 4⟩
      5 "YTD" s1.ytd_vals =
      some ⟨df.nrows, df.cols.take 4 ++ ("Monthly", ps.map Prod.fst) ::
        ("YTD", ps.map Prod.snd) :: df.cols.drop 4⟩ := by
    rw [hytd', hins2', hta, hda]
    simp
  simp only [runPipeline, ht, hb, hins1, hins2]

theorem pipeline_appends_two_columns_witness :
    c2df.wf ∧
    c2df.getCol "Ticker" = some ["SPY", "VFIAX"] ∧
    4 ≤ c2df.cols.length ∧
    (∀ c ∈ c2df.cols, c.1 ≠ "Monthly" ∧ c.1 ≠ "YTD") ∧
    batchLoop ["SPY", "VFIAX"] (initSt c2oracle) = (Except.ok (), c2s1) ∧
    batchResults ["SPY", "VFIAX"] (initSt c2oracle) = some c2ps ∧
    runPipeline c2df c2oracle =
      some ⟨c2df.nrows,
        c2df.cols.take 4 ++ ("Monthly", c2ps.map Prod.fst) ::
          ("YTD", c2ps.map Prod.snd) :: c2df.cols.drop 4⟩ :=
  ⟨show ∀ c ∈ c2df.cols, c.2.length = c2df.nrows by decide,
    by decide, by decide, by decide, by decide, by decide,
    pipeline_appends_two_columns c2df c2oracle ["SPY", "VFIAX"] c2s1 c2ps
      (show ∀ c ∈ c2df.cols, c.2.length = c2df.nrows by decide)
      (by decide) (by decide) (by decide) (by decide) (by decide)⟩

/-- C3: any failure other than an ETF-layout failure is not caught: when
the fund-layout locators also fail after the fallback has been taken, the
scraper itself raises (first conjunct), and a raising scraper call makes
the batch loop stop with that very failure and state, so no ticker after
the failing one is processed (second conjunct). -/
theorem unrecovered_failure_aborts_batch :
    (∀ (t : String) (s s1 s2 s3 : St) (e1 e2 : Unit),
      openSecurityPage t s = (Except.ok (), s1) →
      etfBranch s1 = (Except.error e1, s2) →
      fundBranch s2 = (Except.error e2, s3) →
      scraper t s = (Except.error e2, s3)) ∧
    (∀ (t : String) (rest : List String) (s s1 : St) (e : Unit),
      scraper t s = (Except.error e, s1) →
      batchLoop (t :: rest) s = (Except.error e, s1)) := by
  constructor
  · intro t s s1 s2 s3 e1 e2 hnav hetf hfund
    have hcore : scraperCore t s = fundBranch s2 :=
      scraperCore_eq_fund_of_etf_error t s s1 s2 e1 hnav hetf
    simp [scraper, hcore, hfund]
  · intro t rest s s1 e hsc
    have hstep : batchLoop (t :: rest) s =
        SM.bind (scraper t) (fun _ => batchLoop rest) s := rfl
    rw [hstep]
    simp [SM.bind, hsc]

theorem unrecovered_failure_aborts_batch_witness :
    scraper "spy" c3w0 = (Except.error (), c3w3) ∧
    batchLoop ["spy", "voo"] c3w0 = (Except.error (), c3w3) :=
  ⟨unrecovered_failure_aborts_batch.1 "spy" c3w0 c3w1 c3w2 c3w3 () ()
      (by decide) (by decide) (by decide),
    unrecovered_failure_aborts_batch.2 "spy" ["voo"] c3w0 c3w3 () (by decide)⟩

/-- C4: if the batch loop raises for any ticker, the run produces no
output file at all — in particular no results already scraped for earlier
tickers are persisted. -/
theorem failed_run_produces_no_output (df : DataFrame) (oracle : List Resp)
    (df_tickers : List String) (e : Unit) (s1 : St)
    (ht : df.getCol "Ticker" = some df_tickers)
    (hb : batchLoop df_tickers (initSt oracle) = (Except.error e, s1)) :
    runPipeline df oracle = none := by
  simp only [runPipeline, ht, hb]

theorem failed_run_produces_no_output_witness :
    runPipeline c4df [Resp.err] = none :=
  failed_run_produces_no_output c4df [Resp.err] ["SPY"] () c4s1
    (by decide) (by decide)

/-- C5: for every ticker and every state, the first request the scraper
issues is loading the URL obtained by concatenating the fixed
search-endpoint prefix with the lower-cased ticker symbol. -/
theorem scraper_first_loads_search_url (t : String) (s : St) :
    ∃ d, ((scraper t s).2).trace = s.trace ++
      Req.getUrl ("https://www.morningstar.com/search/us-securities?query=" ++
        strLower t) :: d := by
  obtain ⟨d, ht, _⟩ := scraper_trace t s
  exact ⟨d, ht⟩

/-- C6: the batch driver walks the ticker list in order, issues exactly
one page-load per ticker (in list order), and on success the two
accumulator lists extend by the per-ticker result pairs in that same
order, so the i-th elements of both lists are the results for the i-th
ticker. -/
theorem batch_appends_in_ticker_order (tickers : List String) (s s1 : St)
    (ps : List (String × String))
    (hb : batchLoop tickers s = (Except.ok (), s1))
    (hr : batchResults tickers s = some ps) :
    ps.length = tickers.length ∧
    s1.one_mo_vals = s.one_mo_vals ++ ps.map Prod.fst ∧
    s1.ytd_vals = s.ytd_vals ++ ps.map Prod.snd ∧
    urlsRequested s1.trace = urlsRequested s.trace ++ tickers.map searchUrl :=
  batchLoop_ok_spec tickers s s1 ps hb hr

theorem batch_appends_in_ticker_order_witness :
    c6ps.length = ["SPY"].length ∧
    c6s1.one_mo_vals = (initSt c6oracle).one_mo_vals ++ c6ps.map Prod.fst ∧
    c6s1.ytd_vals = (initSt c6oracle).ytd_vals ++ c6ps.map Prod.snd ∧
    urlsRequested c6s1.trace =
      urlsRequested (initSt c6oracle).trace ++ ["SPY"].map searchUrl :=
  batch_appends_in_ticker_order ["SPY"] (initSt c6oracle) c6s1 c6ps
    (by decide) (by decide)

/-- C7: on full success both layout paths issue the same request sequence
(performance tab, click, wait, monthly toggle, click, wait, two cell
reads) and return the texts of the two cells; the monthly toggle locator
is the same fixed identifier in both branches, and in both layouts the
two cells are the td[2] and td[5] entries of the first row tr[1] of the
trailing-returns table body. -/
theorem both_layouts_share_toggle_and_cells :
    (∀ (s : St) (a b c d v1 v2 : String) (rest : List Resp),
      s.oracle = Resp.ok a :: Resp.ok b :: Resp.ok c :: Resp.ok d ::
        Resp.ok v1 :: Resp.ok v2 :: rest →
      etfBranch s = (Except.ok (v1, v2),
        ⟨rest, s.trace ++ etfTraceDelta, s.one_mo_vals, s.ytd_vals⟩)) ∧
    (∀ (s : St) (a b c d v1 v2 : String) (rest : List Resp),
      s.oracle = Resp.ok a :: Resp.ok b :: Resp.ok c :: Resp.ok d ::
        Resp.ok v1 :: Resp.ok v2 :: rest →
      fundBranch s = (Except.ok (v1, v2),
        ⟨rest, s.trace ++ fundTraceDelta, s.one_mo_vals, s.ytd_vals⟩)) ∧
    etfMonthlyXPath = fundMonthlyXPath ∧
    List.get? etfTraceDelta 3 = some (Req.findElem etfMonthlyXPath) ∧
    List.get? fundTraceDelta 3 = some (Req.findElem fundMonthlyXPath) ∧
    "/table/tbody/tr[1]/td[2]".data <:+ etfOneMoXPath.data ∧
    "/table/tbody/tr[1]/td[2]".data <:+ fundOneMoXPath.data ∧
    "/table/tbody/tr[1]/td[5]".data <:+ etfYtdXPath.data ∧
    "/table/tbody/tr[1]/td[5]".data <:+ fundYtdXPath.data := by
  refine ⟨fun s a b c d v1 v2 rest ho => etfBranch_ok s a b c d v1 v2 rest ho,
    fun s a b c d v1 v2 rest ho => fundBranch_ok s a b c d v1 v2 rest ho,
    by decide, by decide, by decide, by decide, by decide, by decide, by decide⟩

theorem both_layouts_share_toggle_and_cells_witness :
    etfBranch c7e = (Except.ok ("1.1", "2.2"),
      ⟨[], c7e.trace ++ etfTraceDelta, c7e.one_mo_vals, c7e.ytd_vals⟩) ∧
    fundBranch c7f = (Except.ok ("3.3", "4.4"),
      ⟨[], c7f.trace ++ fundTraceDelta, c7f.one_mo_vals, c7f.ytd_vals⟩) :=
  ⟨both_layouts_share_toggle_and_cells.1 c7e "a" "b" "c" "d" "1.1" "2.2" [] (by decide),
    both_layouts_share_toggle_and_cells.2.1 c7f "a" "b" "c" "d" "3.3" "4.4" [] (by decide)⟩

/-- C8: URL construction is case-insensitive in the ticker symbol: two
tickers that agree up to letter case (equal lowercasings) produce the
same search URL, and in particular a ticker and its uppercasing do. -/
theorem search_url_case_insensitive :
    (∀ t u : String, strLower t = strLower u → searchUrl t = searchUrl u) ∧
    (∀ t : String, searchUrl (strUpper t) = searchUrl t ∧
      searchUrl t.toUpper = searchUrl t) := by
  constructor
  · intro t u h
    unfold searchUrl
    rw [h]
  · intro t
    constructor
    · unfold searchUrl
      rw [strLower_strUpper]
    · unfold searchUrl
      rw [← strUpper_eq, strLower_strUpper]

theorem search_url_case_insensitive_witness :
    searchUrl "SPY" = searchUrl "Spy" :=
  search_url_case_insensitive.1 "SPY" "Spy" (by decide)

/-- C9: each scraper call either appends exactly one element to each of
the two accumulator lists (when either layout path succeeded) or raises
before reaching the append step, leaving both lists unchanged; hence the
two lists always have equal length. -/
theorem scraper_appends_to_both_or_neither (t : String) (s : St)
    (hlen : s.one_mo_vals.length = s.ytd_vals.length) :
    ((∃ v1 v2, (scraper t s).1 = Except.ok () ∧
        ((scraper t s).2).one_mo_vals = s.one_mo_vals ++ [v1] ∧
        ((scraper t s).2).ytd_vals = s.ytd_vals ++ [v2]) ∨
      ((scraper t s).1 = Except.error () ∧
        ((scraper t s).2).one_mo_vals = s.one_mo_vals ∧
        ((scraper t s).2).ytd_vals = s.ytd_vals)) ∧
    ((scraper t s).2).one_mo_vals.length = ((scraper t s).2).ytd_vals.length := by
  rcases scraper_cases t s with ⟨p, s0, hc, hs, hv, hy⟩ | ⟨e, s0, hc, hs, hv, hy⟩
  · constructor
    · exact Or.inl ⟨p.1, p.2, by rw [hs], by rw [hs]; simp [pushVals, hv],
        by rw [hs]; simp [pushVals, hy]⟩
    · rw [hs]
      simp [pushVals, hv, hy, hlen]
  · constructor
    · exact Or.inr ⟨by rw [hs], by rw [hs]; exact hv, by rw [hs]; exact hy⟩
    · rw [hs]
      have h1 : s0.one_mo_vals = s.one_mo_vals := hv
      have h2 : s0.ytd_vals = s.ytd_vals := hy
      simp [h1, h2, hlen]

theorem scraper_appends_to_both_or_neither_witness :
    ((∃ v1 v2, (scraper "spy" c9w0).1 = Except.ok () ∧
        ((scraper "spy" c9w0).2).one_mo_vals = c9w0.one_mo_vals ++ [v1] ∧
        ((scraper "spy" c9w0).2).ytd_vals = c9w0.ytd_vals ++ [v2]) ∨
      ((scraper "spy" c9w0).1 = Except.error () ∧
        ((scraper "spy" c9w0).2).one_mo_vals = c9w0.one_mo_vals ∧
        ((scraper "spy" c9w0).2).ytd_vals = c9w0.ytd_vals)) ∧
    ((scraper "spy" c9w0).2).one_mo_vals.length =
      ((scraper "spy" c9w0).2).ytd_vals.length :=
  scraper_appends_to_both_or_neither "spy" c9w0 (by decide)

/-- C10: the try/except fallback covers only the ETF-layout block; a
failure while loading the search URL or while locating or clicking the
first search-result link happens before the `try`, so the scraper call
raises with the failure state as is, and no locator of the ETF or fund
layout (indeed no locator but the first-search-result one) was ever
queried. -/
theorem pre_try_failure_skips_fallback (t : String) (s s1 : St) (e : Unit)
    (h : openSecurityPage t s = (Except.error e, s1)) :
    scraper t s = (Except.error e, s1) ∧
    ∃ d, s1.trace = s.trace ++ d ∧
      ∀ xp, Req.findElem xp ∈ d → xp = firstResultXPath := by
  constructor
  · have hcore : scraperCore t s = (Except.error e, s1) := by
      unfold scraperCore
      show SM.bind (openSecurityPage t) _ s = _
      simp [SM.bind, h]
    simp [scraper, hcore]
  · obtain ⟨d, hd, hmem⟩ := findsIn_openSecurityPage t s
    rw [h] at hd
    have hd' : s1.trace = s.trace ++ d := hd
    refine ⟨d, hd', fun xp hxp => ?_⟩
    have := hmem xp hxp
    simpa using this

theorem pre_try_failure_skips_fallback_witness :
    scraper "spy" c10w0 = (Except.error (), c10w1) ∧
    ∃ d, c10w1.trace = c10w0.trace ++ d ∧
      ∀ xp, Req.findElem xp ∈ d → xp = firstResultXPath :=
  pre_try_failure_skips_fallback "spy" c10w0 c10w1 () (by decide)
